import Mathlib

/-!
Verification development for the `blah` graphics abstraction layer
(`src/public/blah/graphics/graphics.h`).

The header declares the render-command model (`RenderCall`, `render`, `clear`),
the blend-state model (`BlendMode`) and the resource-handle factories of the
`Graphics` facade.  Value types and their operators are embedded directly from
the header.  The bodies of the facade operations and of the `RenderCall`
constructor live in a translation unit that is not part of the sources, so
those operations are modelled from the specification (each such definition is
marked `Modelled from the spec:`).
-/

namespace Blah

/-- Embedding of `enum class Compare` (graphics.h lines 17-28), including the
source's spelling `GreatorOrEqual`. -/
inductive Compare where
  | None
  | Always
  | Never
  | Less
  | Equal
  | LessOrEqual
  | Greater
  | NotEqual
  | GreatorOrEqual
deriving DecidableEq, Repr

/-- Embedding of `enum class Cull` (graphics.h lines 30-36). -/
inductive Cull where
  | None
  | Front
  | Back
  | Both
deriving DecidableEq, Repr

/-- Embedding of `enum class BlendOp` (graphics.h lines 38-45). -/
inductive BlendOp where
  | Add
  | Subtract
  | ReverseSubtract
  | Min
  | Max
deriving DecidableEq, Repr

/-- Embedding of `enum class BlendFactor` (graphics.h lines 47-68), one
constructor per enumerator in source order. -/
inductive BlendFactor where
  | Zero
  | One
  | SrcColor
  | OneMinusSrcColor
  | DstColor
  | OneMinusDstColor
  | SrcAlpha
  | OneMinusSrcAlpha
  | DstAlpha
  | OneMinusDstAlpha
  | ConstantColor
  | OneMinusConstantColor
  | ConstantAlpha
  | OneMinusConstantAlpha
  | SrcAlphaSaturate
  | Src1Color
  | OneMinusSrc1Color
  | Src1Alpha
  | OneMinusSrc1Alpha
deriving DecidableEq, Repr, Fintype

/-- Embedding of `enum class BlendMask` (graphics.h lines 70-79).  The C++
enumerators carry bit values and `==` on the enum compares those underlying
values (`RGB` really is `Red | Green | Blue`), so the type is embedded as the
underlying integer value. -/
abbrev BlendMask := Nat

/-- Value of the `BlendMask::None` enumerator. -/
def BlendMask.None : BlendMask := 0

/-- Value of the `BlendMask::Red` enumerator. -/
def BlendMask.Red : BlendMask := 1

/-- Value of the `BlendMask::Green` enumerator. -/
def BlendMask.Green : BlendMask := 2

/-- Value of the `BlendMask::Blue` enumerator. -/
def BlendMask.Blue : BlendMask := 4

/-- Value of the `BlendMask::Alpha` enumerator. -/
def BlendMask.Alpha : BlendMask := 8

/-- Value of the `BlendMask::RGB` enumerator (`Red | Green | Blue`). -/
def BlendMask.RGB : BlendMask := BlendMask.Red ||| BlendMask.Green ||| BlendMask.Blue

/-- Value of the `BlendMask::RGBA` enumerator (`Red | Green | Blue | Alpha`). -/
def BlendMask.RGBA : BlendMask := BlendMask.Red ||| BlendMask.Green ||| BlendMask.Blue ||| BlendMask.Alpha

/-- Embedding of `struct BlendMode` (graphics.h lines 81-127): eight fields,
`rgba` being a `uint32_t` packed colour represented as a natural number. -/
structure BlendMode where
  colorOp : BlendOp
  colorSrc : BlendFactor
  colorDst : BlendFactor
  alphaOp : BlendOp
  alphaSrc : BlendFactor
  alphaDst : BlendFactor
  mask : BlendMask
  rgba : Nat
deriving DecidableEq, Repr

/-- Embedding of the simplified constructor
`BlendMode(BlendOp op, BlendFactor src, BlendFactor dst)`
(graphics.h lines 94-104): the triad is applied to both colour and alpha, the
mask is set to `BlendMask::RGBA` and the constant colour to `0xffffffff`. -/
def BlendMode.simple (op : BlendOp) (src : BlendFactor) (dst : BlendFactor) : BlendMode :=
  { colorOp := op
    colorSrc := src
    colorDst := dst
    alphaOp := op
    alphaSrc := src
    alphaDst := dst
    mask := BlendMask.RGBA
    rgba := 0xffffffff }

/-- Embedding of the full constructor
`BlendMode(BlendOp rgbOp, ..., BlendMask blendMask, uint32_t blendColor)`
(graphics.h lines 106-116): every field is taken from the arguments. -/
def BlendMode.full (rgbOp : BlendOp) (rgbSrc : BlendFactor) (rgbDst : BlendFactor)
    (aOp : BlendOp) (aSrc : BlendFactor) (aDst : BlendFactor)
    (blendMask : BlendMask) (blendColor : Nat) : BlendMode :=
  { colorOp := rgbOp
    colorSrc := rgbSrc
    colorDst := rgbDst
    alphaOp := aOp
    alphaSrc := aSrc
    alphaDst := aDst
    mask := blendMask
    rgba := blendColor }

/-- Embedding of `BlendMode::operator==` (graphics.h lines 118-122): the
conjunction of the field-wise comparisons, in source order. -/
def BlendMode.beq (a rhs : BlendMode) : Bool :=
  a.colorOp == rhs.colorOp && a.colorSrc == rhs.colorSrc && a.colorDst == rhs.colorDst &&
  a.alphaOp == rhs.alphaOp && a.alphaSrc == rhs.alphaSrc && a.alphaDst == rhs.alphaDst &&
  a.mask == rhs.mask && a.rgba == rhs.rgba

/-- Embedding of `BlendMode::operator!=` (graphics.h line 123):
`!(*this == rhs)`. -/
def BlendMode.bne (a rhs : BlendMode) : Bool :=
  !(BlendMode.beq a rhs)

/-- Modelled from the spec: the value of the predeclared constant
`BlendMode::Normal` (declared at graphics.h line 125) is defined in a
translation unit that is not among the sources; the spec asks for a standard
alpha-blend mode built with canonical factors via the simplified
constructor. -/
def BlendMode.Normal : BlendMode :=
  BlendMode.simple BlendOp.Add BlendFactor.One BlendFactor.OneMinusSrcAlpha

/-- Modelled from the spec: the value of the predeclared constant
`BlendMode::Subtract` (declared at graphics.h line 126) is defined in a
translation unit that is not among the sources; the spec asks for a canonical
subtractive mode built via the simplified constructor. -/
def BlendMode.Subtract : BlendMode :=
  BlendMode.simple BlendOp.ReverseSubtract BlendFactor.One BlendFactor.One

/-- Embedding of the defaulted default constructor `BlendMode() = default;`
(graphics.h line 92): it initializes none of the eight fields, so the
constructed object simply exposes whatever indeterminate contents `junk` the
underlying memory happens to hold. -/
def BlendMode.defaultCtor (junk : BlendMode) : BlendMode := junk

/-- Each read of an indeterminate object may yield an arbitrary value, so a
self-comparison `mode == mode` of a default-constructed `BlendMode` compares
two independent, unconstrained reads `read1` and `read2`. -/
def BlendMode.indetSelfEq (read1 read2 : BlendMode) : Bool :=
  BlendMode.beq read1 read2

/-- Modelled from the spec: the repository's `Rect` type (`blah/math/rect.h`)
is not among the sources; a `RenderCall` only carries its viewport and scissor
rectangles as inert payload, so a rectangle is modelled as four integer
components. -/
structure Rect where
  x : Int
  y : Int
  w : Int
  h : Int
deriving DecidableEq, Repr

/-- Modelled from the spec: a resource handle is a shared-ownership reference
with a distinguishable invalid state, wrapping an index into backend-owned
storage; `none` is the invalid sentinel. -/
abbrev FrameBufferRef := Option Nat

/-- Modelled from the spec: shared-ownership handle to a backend-owned mesh,
`none` being the invalid sentinel. -/
abbrev MeshRef := Option Nat

/-- Modelled from the spec: shared-ownership handle to a backend-owned
material, `none` being the invalid sentinel. -/
abbrev MaterialRef := Option Nat

/-- Modelled from the spec: shared-ownership handle to a backend-owned shader,
`none` being the invalid sentinel. -/
abbrev ShaderRef := Option Nat

/-- Modelled from the spec: the repository's `TextureFormat` type
(`blah/graphics/texture.h`) is not among the sources; only the presence of
attachment formats matters here. -/
inductive TextureFormat where
  | R
  | RG
  | RGBA
  | DepthStencil
deriving DecidableEq, Repr

/-- Modelled from the spec: the backend-owned state of a mesh; only its
current index count is observable at this layer (geometry upload is an
excluded collaborator). -/
structure Mesh where
  index_count : Int
deriving DecidableEq, Repr

/-- Modelled from the spec: the backend-owned state of a framebuffer: a list
of attachments, each attachment a list of packed 32-bit pixel colours. -/
structure FrameBuffer where
  attachments : List (List Nat)
deriving DecidableEq, Repr

/-- Embedding of `struct GraphicsInfo` (graphics.h lines 183-188) with the
source's default member values. -/
structure GraphicsInfo where
  instancing : Bool := false
  origin_bottom_left : Bool := false
  max_texture_size : Int := 0
deriving DecidableEq, Repr

/-- Embedding of `struct RenderCall` (graphics.h lines 129-172): one flat
aggregate holding every piece of per-draw state, fields in source order. -/
structure RenderCall where
  target : FrameBufferRef
  mesh : MeshRef
  material : MaterialRef
  has_viewport : Bool
  has_scissor : Bool
  viewport : Rect
  scissor : Rect
  index_start : Int
  index_count : Int
  instance_count : Int
  depth : Compare
  cull : Cull
  blend : BlendMode
deriving DecidableEq, Repr

/-- Modelled from the spec: the error taxonomy of submission failures
(invalid reference at submission or out-of-range index span), reported through
the error-reporting collaborator. -/
inductive GraphicsError where
  | invalidTarget
  | invalidMesh
  | invalidMaterial
  | indexRangeOutOfBounds
deriving DecidableEq, Repr

/-- Modelled from the spec: the backend-owned storage behind the facade.
`shaders` holds the number of externally held handles per shader slot (a slot
whose count is zero and which no live material references is destroyed);
`materials` holds `some shaderIndex` for each live material and `none` for a
released one; `drawLog` records the draw commands flushed to the device, in
submission order. -/
structure GpuState where
  info : GraphicsInfo
  shaders : List Nat
  materials : List (Option Nat)
  meshes : List Mesh
  framebuffers : List FrameBuffer
  drawLog : List RenderCall
deriving DecidableEq, Repr

/-- Modelled from the spec: the framebuffer a handle refers to in a state,
`none` when the handle is invalid or dangling. -/
def fbAt (s : GpuState) (h : FrameBufferRef) : Option FrameBuffer :=
  h.bind (fun i => s.framebuffers.get? i)

/-- Modelled from the spec: validity of a framebuffer handle in a state. -/
def framebufferref_valid (s : GpuState) (h : FrameBufferRef) : Bool :=
  (fbAt s h).isSome

/-- Modelled from the spec: the mesh a handle refers to in a state, `none`
when the handle is invalid or dangling. -/
def meshAt (s : GpuState) (h : MeshRef) : Option Mesh :=
  h.bind (fun i => s.meshes.get? i)

/-- Modelled from the spec: validity of a mesh handle in a state. -/
def meshref_valid (s : GpuState) (h : MeshRef) : Bool :=
  (meshAt s h).isSome

/-- Modelled from the spec: validity of a material handle in a state: the
handle designates a material slot that is still live. -/
def materialref_valid (s : GpuState) (h : MaterialRef) : Bool :=
  match h with
  | none => false
  | some k => (s.materials.getD k none).isSome

/-- Modelled from the spec: the shader slot a live material references,
`none` for an invalid handle or a released material. -/
def material_shader (s : GpuState) (h : MaterialRef) : Option Nat :=
  match h with
  | none => none
  | some k => s.materials.getD k none

/-- Modelled from the spec: a shader slot is alive while some external handle
still references it or some live material holds a strong reference to it; it
is destroyed when the last reference is released. -/
def shader_alive (s : GpuState) (j : Nat) : Bool :=
  decide (0 < s.shaders.getD j 0) || s.materials.any (fun o => o == some j)

/-- Modelled from the spec: validity of a shader handle in a state. -/
def shaderref_valid (s : GpuState) (h : ShaderRef) : Bool :=
  match h with
  | none => false
  | some j => shader_alive s j

namespace Graphics

/-- Modelled from the spec: the permanently-valid handle to the platform's
default render target (declared at graphics.h line 192); slot 0 of the
backend storage is reserved for it. -/
def backbuffer : FrameBufferRef := some 0

/-- Modelled from the spec: `Graphics::create_shader` (declared at
graphics.h line 230); shader compilation is an excluded collaborator, so the
model allocates a live shader slot holding one external handle and returns a
valid handle to it. -/
def create_shader (s : GpuState) : GpuState × ShaderRef :=
  ({ s with shaders := s.shaders ++ [1] }, some s.shaders.length)

/-- Modelled from the spec: `Graphics::create_material` (declared at
graphics.h lines 232-234): an invalid shader handle yields an invalid material
handle; a valid one yields a live material that holds a strong reference to
that shader. -/
def create_material (s : GpuState) (shader : ShaderRef) : GpuState × MaterialRef :=
  match shader with
  | none => (s, none)
  | some j =>
    if shader_alive s j then
      ({ s with materials := s.materials ++ [some j] }, some s.materials.length)
    else
      (s, none)

/-- Modelled from the spec: `Graphics::create_mesh` (declared at graphics.h
lines 236-238) returns a mesh handle with no initial geometry. -/
def create_mesh (s : GpuState) : GpuState × MeshRef :=
  ({ s with meshes := s.meshes ++ [{ index_count := 0 }] }, some s.meshes.length)

/-- Modelled from the spec: `Graphics::create_framebuffer` (declared at
graphics.h lines 224-226): an empty attachment list, or a size the backend
does not support (see `GraphicsInfo.max_texture_size`), yields an invalid
handle; otherwise a framebuffer is allocated with one zero-initialized pixel
plane of `width * height` pixels per requested attachment. -/
def create_framebuffer (s : GpuState) (width height : Int)
    (attachments : List TextureFormat) : GpuState × FrameBufferRef :=
  if attachments.length = 0 then
    (s, none)
  else if width ≤ 0 || height ≤ 0 || s.info.max_texture_size < width ||
      s.info.max_texture_size < height then
    (s, none)
  else
    ({ s with framebuffers := s.framebuffers ++
        [{ attachments := attachments.map
            (fun _ => List.replicate (width * height).toNat 0) }] },
      some s.framebuffers.length)

/-- Modelled from the spec: `Graphics::render` (declared at graphics.h
lines 240-241): validates that the target, mesh and material handles are
valid and that the index range lies within the mesh's current index count;
any failed check makes the call a reported-error no-op, otherwise the call is
flushed to the device (appended to the draw log). -/
def render (s : GpuState) (call : RenderCall) : GpuState × Option GraphicsError :=
  if framebufferref_valid s call.target = false then
    (s, some GraphicsError.invalidTarget)
  else
    match meshAt s call.mesh with
    | none => (s, some GraphicsError.invalidMesh)
    | some m =>
      if materialref_valid s call.material = false then
        (s, some GraphicsError.invalidMaterial)
      else if (decide (0 ≤ call.index_start) && decide (0 ≤ call.index_count) &&
          decide (call.index_start + call.index_count ≤ m.index_count)) = false then
        (s, some GraphicsError.indexRangeOutOfBounds)
      else
        ({ s with drawLog := s.drawLog ++ [call] }, none)

/-- Modelled from the spec: `Graphics::clear` (declared at graphics.h
lines 243-244): a valid target has every pixel of every attachment set to the
packed colour; an invalid target is a reported error and the state is left
untouched (never redirected to the backbuffer). -/
def clear (s : GpuState) (target : FrameBufferRef) (rgba : Nat) :
    GpuState × Option GraphicsError :=
  match target with
  | none => (s, some GraphicsError.invalidTarget)
  | some i =>
    match s.framebuffers.get? i with
    | none => (s, some GraphicsError.invalidTarget)
    | some fb =>
      let cleared : FrameBuffer :=
        { attachments := fb.attachments.map (fun a => a.map (fun _ => rgba)) }
      ({ s with framebuffers := s.framebuffers.set i cleared }, none)

end Graphics

/-- Modelled from the spec: the constructor `RenderCall()` (declared at
graphics.h line 171) is defined in a translation unit that is not among the
sources; the spec's defaults are: target = backbuffer, no mesh or material
yet, no viewport or scissor override, index range left for the caller to set,
a single instance, an always-pass depth compare, no culling, and the Normal
blend mode. -/
def RenderCall.init : RenderCall :=
  { target := Graphics.backbuffer
    mesh := none
    material := none
    has_viewport := false
    has_scissor := false
    viewport := { x := 0, y := 0, w := 0, h := 0 }
    scissor := { x := 0, y := 0, w := 0, h := 0 }
    index_start := 0
    index_count := 0
    instance_count := 1
    depth := Compare.Always
    cull := Cull.None
    blend := BlendMode.Normal }

/-- Modelled from the spec: the operations a caller may perform against the
facade after a given state, including releasing a shared-ownership handle it
holds (dropping a reference). -/
inductive GraphicsOp where
  | createShader
  | createMaterial (h : ShaderRef)
  | releaseShader (h : ShaderRef)
  | releaseMaterial (h : MaterialRef)
  | createMesh
  | createFramebuffer (width height : Int) (attachments : List TextureFormat)
  | renderCall (call : RenderCall)
  | clearCall (t : FrameBufferRef) (rgba : Nat)
deriving Repr

/-- Modelled from the spec: releasing one externally held shader handle drops
one reference from its slot. -/
def release_shader (s : GpuState) (h : ShaderRef) : GpuState :=
  match h with
  | none => s
  | some j => { s with shaders := s.shaders.set j (s.shaders.getD j 0 - 1) }

/-- Modelled from the spec: releasing a material handle ends the material's
lifetime, dropping its strong reference to its shader. -/
def release_material (s : GpuState) (h : MaterialRef) : GpuState :=
  match h with
  | none => s
  | some k => { s with materials := s.materials.set k none }

/-- Modelled from the spec: the state transition of one facade operation. -/
def applyOp (s : GpuState) : GraphicsOp → GpuState
  | GraphicsOp.createShader => (Graphics.create_shader s).1
  | GraphicsOp.createMaterial h => (Graphics.create_material s h).1
  | GraphicsOp.releaseShader h => release_shader s h
  | GraphicsOp.releaseMaterial h => release_material s h
  | GraphicsOp.createMesh => (Graphics.create_mesh s).1
  | GraphicsOp.createFramebuffer w h atts => (Graphics.create_framebuffer s w h atts).1
  | GraphicsOp.renderCall call => (Graphics.render s call).1
  | GraphicsOp.clearCall t rgba => (Graphics.clear s t rgba).1

/-- Modelled from the spec: the state after a sequence of facade operations,
executed in submission order. -/
def applyOps (s : GpuState) (ops : List GraphicsOp) : GpuState :=
  ops.foldl applyOp s

/-- Concrete fixture: the freshly initialized facade state with an empty
backend storage and a 4096-pixel texture-size capability. -/
def state0 : GpuState :=
  { info := { instancing := true, origin_bottom_left := false, max_texture_size := 4096 }
    shaders := []
    materials := []
    meshes := []
    framebuffers := []
    drawLog := [] }

/-- Concrete fixture: a 4x4 single-attachment framebuffer, all pixels zero. -/
def fb0 : FrameBuffer :=
  { attachments := [List.replicate 16 0] }

/-- Concrete fixture: a state owning the single framebuffer `fb0`. -/
def stateFb : GpuState :=
  { state0 with framebuffers := [fb0] }

/-- Concrete fixture: a state owning one shader slot with one external
handle. -/
def stateSh : GpuState :=
  { state0 with shaders := [1] }

/-- Helper: reading the slot just appended at the end of a list. -/
theorem getD_append_self {α} (l : List α) (x d : α) :
    (l ++ [x]).getD l.length d = x := by
  rw [List.getD_append_right _ _ _ _ (le_refl _)]
  simp

/-- Helper: a `getD` answer different from the default lies inside the
list's bounds. -/
theorem getD_lt_of_eq_some {l : List (Option Nat)} {k j : Nat}
    (h : l.getD k none = some j) : k < l.length := by
  by_contra hk
  push_neg at hk
  rw [List.getD_eq_default _ _ hk] at h
  cases h

/-- Helper: a `getD` answer different from the default is a member of the
list. -/
theorem mem_of_getD_eq_some {l : List (Option Nat)} {k j : Nat}
    (h : l.getD k none = some j) : some j ∈ l := by
  have hk := getD_lt_of_eq_some h
  rw [List.getD_eq_getElem _ _ hk] at h
  exact h ▸ List.getElem_mem hk

/-- Helper: reading the slot just overwritten by `set`. -/
theorem getD_set_self {α} (l : List α) (k : Nat) (a d : α) (hk : k < l.length) :
    (l.set k a).getD k d = a := by
  rw [List.getD_eq_getD_get?, List.get?_eq_getElem?, List.getElem?_set_eq_of_lt _ hk]
  rfl

/-- Helper: `set` leaves every other slot's `getD` unchanged. -/
theorem getD_set_ne {α} (l : List α) (k k' : Nat) (a d : α) (hne : k' ≠ k) :
    (l.set k' a).getD k d = l.getD k d := by
  rw [List.getD_eq_getD_get?, List.get?_eq_getElem?, List.getElem?_set_ne hne,
    ← List.get?_eq_getElem?, ← List.getD_eq_getD_get?]

/-- Helper: looking a concrete handle up in the framebuffer store. -/
theorem fbAt_some (s : GpuState) (i : Nat) :
    fbAt s (some i) = s.framebuffers.get? i := rfl

/-- Helper: every facade operation either leaves the material store
untouched, appends one new slot at the end, or releases one slot. -/
theorem applyOp_materials (s : GpuState) (op : GraphicsOp) :
    (applyOp s op).materials = s.materials ∨
    (∃ x, (applyOp s op).materials = s.materials ++ [x]) ∨
    (∃ k', (applyOp s op).materials = s.materials.set k' none) := by
  cases op with
  | createShader => exact Or.inl rfl
  | createMaterial h =>
    cases h with
    | none => exact Or.inl rfl
    | some j =>
      by_cases hal : shader_alive s j
      · simp only [applyOp, Graphics.create_material, hal, if_true]
        exact Or.inr (Or.inl ⟨some j, rfl⟩)
      · simp only [applyOp, Graphics.create_material, hal, if_false]
        exact Or.inl rfl
  | releaseShader h =>
    cases h with
    | none => exact Or.inl rfl
    | some j => exact Or.inl rfl
  | releaseMaterial h =>
    cases h with
    | none => exact Or.inl rfl
    | some k' => exact Or.inr (Or.inr ⟨k', rfl⟩)
  | createMesh => exact Or.inl rfl
  | createFramebuffer w h atts =>
    simp only [applyOp, Graphics.create_framebuffer]
    split
    · exact Or.inl rfl
    · split
      · exact Or.inl rfl
      · exact Or.inl rfl
  | renderCall call =>
    simp only [applyOp, Graphics.render]
    split
    · exact Or.inl rfl
    · split
      · exact Or.inl rfl
      · split
        · exact Or.inl rfl
        · split
          · exact Or.inl rfl
          · exact Or.inl rfl
  | clearCall t rgba =>
    simp only [applyOp, Graphics.clear]
    split
    · exact Or.inl rfl
    · split
      · exact Or.inl rfl
      · exact Or.inl rfl

/-- Helper: one facade operation preserves the fact that a material slot still
holds its original shader reference, unless the slot has been released. -/
theorem applyOp_pres (s : GpuState) (op : GraphicsOp) (k j : Nat)
    (hk : k < s.materials.length)
    (h : s.materials.getD k none = some j ∨ s.materials.getD k none = none) :
    k < (applyOp s op).materials.length ∧
    ((applyOp s op).materials.getD k none = some j ∨
     (applyOp s op).materials.getD k none = none) := by
  rcases applyOp_materials s op with heq | ⟨x, heq⟩ | ⟨k', heq⟩
  · rw [heq]; exact ⟨hk, h⟩
  · rw [heq]
    refine ⟨?_, ?_⟩
    · simp only [List.length_append, List.length_cons, List.length_nil]
      omega
    · rw [List.getD_append _ _ _ _ hk]; exact h
  · rw [heq]
    refine ⟨by simpa [List.length_set] using hk, ?_⟩
    by_cases hkk : k' = k
    · subst hkk
      exact Or.inr (getD_set_self _ _ _ _ hk)
    · rw [getD_set_ne _ _ _ _ _ hkk]
      exact h

/-- Helper: any sequence of facade operations preserves that a material slot
still holds its original shader reference, unless it has been released. -/
theorem applyOps_pres (ops : List GraphicsOp) (s : GpuState) (k j : Nat)
    (hk : k < s.materials.length)
    (h : s.materials.getD k none = some j ∨ s.materials.getD k none = none) :
    k < (applyOps s ops).materials.length ∧
    ((applyOps s ops).materials.getD k none = some j ∨
     (applyOps s ops).materials.getD k none = none) := by
  induction ops generalizing s with
  | nil => exact ⟨hk, h⟩
  | cons op ops ih =>
    have step := applyOp_pres s op k j hk h
    exact ih (applyOp s op) step.1 step.2

/-- C1: for every pair of `BlendMode` values `a` and `b`, `a == b` holds if
and only if all eight fields (colorOp, colorSrc, colorDst, alphaOp, alphaSrc,
alphaDst, mask, rgba) are pairwise equal, and `a != b` returns exactly the
negation of `a == b`. -/
theorem blendMode_eq_iff_all_fields (a b : BlendMode) :
    (BlendMode.beq a b = true ↔
      (a.colorOp = b.colorOp ∧ a.colorSrc = b.colorSrc ∧ a.colorDst = b.colorDst ∧
       a.alphaOp = b.alphaOp ∧ a.alphaSrc = b.alphaSrc ∧ a.alphaDst = b.alphaDst ∧
       a.mask = b.mask ∧ a.rgba = b.rgba)) ∧
    BlendMode.bne a b = !(BlendMode.beq a b) := by
  refine ⟨?_, rfl⟩
  simp [BlendMode.beq, Bool.and_eq_true, beq_iff_eq, and_assoc]

/-- C2: a default-constructed `RenderCall` has `has_viewport = false`,
`has_scissor = false`, `instance_count = 1`, `cull = Cull::None`, the
permissive always-pass depth compare, and `blend == BlendMode::Normal`. -/
theorem renderCall_default_spec :
    RenderCall.init.has_viewport = false ∧
    RenderCall.init.has_scissor = false ∧
    RenderCall.init.instance_count = 1 ∧
    RenderCall.init.cull = Cull.None ∧
    RenderCall.init.depth = Compare.Always ∧
    BlendMode.beq RenderCall.init.blend BlendMode.Normal = true := by
  decide

/-- C7: the predefined constants `BlendMode::Normal` and `BlendMode::Subtract`
are distinct (`Normal != Subtract` is `true`), and each is self-equal under
`==`. -/
theorem blendMode_normal_subtract_distinct :
    BlendMode.bne BlendMode.Normal BlendMode.Subtract = true ∧
    BlendMode.beq BlendMode.Normal BlendMode.Normal = true ∧
    BlendMode.beq BlendMode.Subtract BlendMode.Subtract = true := by
  decide

/-- C8: for every `BlendOp` `op` and `BlendFactors` `src` and `dst`, the
simplified constructor `BlendMode(op, src, dst)` produces a value equal under
`==` to the full constructor
`BlendMode(op, src, dst, op, src, dst, BlendMask::RGBA, 0xffffffff)`. -/
theorem blendMode_simple_eq_full (op : BlendOp) (src dst : BlendFactor) :
    BlendMode.beq (BlendMode.simple op src dst)
      (BlendMode.full op src dst op src dst BlendMask.RGBA 0xffffffff) = true := by
  simp [BlendMode.simple, BlendMode.full, BlendMode.beq]

/-- C9 counterexample: the blend-factor enumeration does not have exactly 18
values. -/
theorem blendFactor_card_ne_18 : ¬ (Fintype.card BlendFactor = 18) := by
  decide

/-- C9 (amended): the blend-factor enumeration used for the source and
destination factor fields of `BlendMode` has exactly 19 values: the zero/one,
src-color/dst-color, src-alpha/dst-alpha, constant-color/constant-alpha and
dual-source variants, plus `SrcAlphaSaturate`. -/
theorem blendFactor_card_eq_19 : Fintype.card BlendFactor = 19 := by
  decide

/-- C10: the defaulted default constructor `BlendMode() = default;`
initializes none of the eight fields, so a default-constructed `BlendMode`
exposes indeterminate contents: it is not guaranteed to equal
`BlendMode::Normal`, and since each read of an indeterminate object is
unconstrained, the self-comparison `mode == mode` is not guaranteed to hold
either. -/
theorem blendMode_default_ctor_indeterminate :
    (∃ junk : BlendMode, BlendMode.bne (BlendMode.defaultCtor junk) BlendMode.Normal = true) ∧
    (∃ read1 read2 : BlendMode, BlendMode.indetSelfEq read1 read2 = false) := by
  refine ⟨⟨BlendMode.simple BlendOp.Max BlendFactor.Zero BlendFactor.Zero, by decide⟩,
    ⟨BlendMode.Normal, BlendMode.Subtract, by decide⟩⟩

/-- C3: for every `RenderCall` whose mesh handle is invalid, or whose
`index_start + index_count` exceeds the mesh's current index count, `render`
performs no GPU side effect and no state change: it reports an error and
returns as a no-op. -/
theorem render_invalid_mesh_or_range_noop (s : GpuState) (call : RenderCall)
    (hbad : meshref_valid s call.mesh = false ∨
      ∃ m, meshAt s call.mesh = some m ∧
        m.index_count < call.index_start + call.index_count) :
    (Graphics.render s call).1 = s ∧ (Graphics.render s call).2.isSome = true := by
  unfold Graphics.render
  rcases hbad with hinv | ⟨m, hm, hlt⟩
  · have hnone : meshAt s call.mesh = none := by
      unfold meshref_valid at hinv
      exact Option.not_isSome_iff_eq_none.mp (by simp [hinv])
    split
    · exact ⟨rfl, rfl⟩
    · simp [hnone]
  · split
    · exact ⟨rfl, rfl⟩
    · simp only [hm]
      have hrange : decide (call.index_start + call.index_count ≤ m.index_count) = false :=
        decide_eq_false (not_le.mpr hlt)
      rw [hrange, Bool.and_false]
      split
      · exact ⟨rfl, rfl⟩
      · simp

/-- C4: for every valid framebuffer handle `t` and packed colour `c`,
`clear(t, c)` succeeds and sets every pixel of every attachment of `t` to `c`;
for every invalid handle `t`, `clear` reports an error and leaves the state
untouched, never redirecting to the backbuffer. -/
theorem clear_valid_all_pixels_invalid_noop (s : GpuState) (t : FrameBufferRef) (c : Nat) :
    (∀ fb, fbAt s t = some fb →
      (Graphics.clear s t c).2 = none ∧
      fbAt (Graphics.clear s t c).1 t =
        some ({ attachments := fb.attachments.map (fun a => a.map (fun _ => c)) }) ∧
      ∀ fb', fbAt (Graphics.clear s t c).1 t = some fb' →
        ∀ a ∈ fb'.attachments, ∀ p ∈ a, p = c) ∧
    (fbAt s t = none → Graphics.clear s t c = (s, some GraphicsError.invalidTarget)) := by
  constructor
  · intro fb hfb
    cases t with
    | none => cases hfb
    | some i =>
      have hget : s.framebuffers.get? i = some fb := hfb
      have hlen : i < s.framebuffers.length := by
        rw [List.get?_eq_getElem?] at hget
        exact (List.getElem?_eq_some.mp hget).1
      have hred : Graphics.clear s (some i) c = ({ s with framebuffers := s.framebuffers.set i ({ attachments := fb.attachments.map (fun a => a.map (fun _ => c)) }) }, none) := by
        unfold Graphics.clear
        simp only [hget]
      have hc2 : (Graphics.clear s (some i) c).2 = none := by rw [hred]
      have hcfb : fbAt (Graphics.clear s (some i) c).1 (some i) =
          some ({ attachments := fb.attachments.map (fun a => a.map (fun _ => c)) }) := by
        rw [hred, fbAt_some, List.get?_eq_getElem?, List.getElem?_set_eq_of_lt _ hlen]
      refine ⟨hc2, hcfb, ?_⟩
      intro fb' hfb' a ha p hp
      rw [hcfb] at hfb'
      injection hfb' with hfb'
      subst hfb'
      simp only [List.mem_map] at ha
      obtain ⟨a0, _, ha0⟩ := ha
      subst ha0
      simp only [List.mem_map] at hp
      obtain ⟨p0, _, hp0⟩ := hp
      exact hp0.symm
  · intro hnone
    cases t with
    | none => rfl
    | some i =>
      have hget : s.framebuffers.get? i = none := hnone
      unfold Graphics.clear
      simp only [hget]

/-- C5: for every width and height, `create_framebuffer` with an attachment
count of zero (an empty attachment list) returns an invalid handle, leaving
the state untouched, and does not throw (the model is a total function). -/
theorem create_framebuffer_empty_attachments (s : GpuState) (width height : Int)
    (atts : List TextureFormat) (hc : atts.length = 0) :
    Graphics.create_framebuffer s width height atts = (s, none) := by
  unfold Graphics.create_framebuffer
  simp [hc]

/-- C6: `create_material` applied to an invalid shader handle returns an
invalid material handle and changes nothing; applied to a valid shader handle
it returns a valid material handle that holds a strong reference to that
shader, so under every subsequent sequence of facade operations the shader
stays alive for at least as long as the material is live. -/
theorem create_material_spec (s : GpuState) (sh : ShaderRef) (j : Nat) :
    (shaderref_valid s sh = false → Graphics.create_material s sh = (s, none)) ∧
    (sh = some j → shaderref_valid s sh = true →
      materialref_valid (Graphics.create_material s sh).1
        (Graphics.create_material s sh).2 = true ∧
      material_shader (Graphics.create_material s sh).1
        (Graphics.create_material s sh).2 = some j ∧
      ∀ ops : List GraphicsOp,
        materialref_valid (applyOps (Graphics.create_material s sh).1 ops)
          (Graphics.create_material s sh).2 = true →
        shader_alive (applyOps (Graphics.create_material s sh).1 ops) j = true) := by
  constructor
  · intro hinv
    cases sh with
    | none => rfl
    | some j' =>
      simp only [shaderref_valid] at hinv
      simp [Graphics.create_material, hinv]
  · intro hsh hval
    subst hsh
    simp only [shaderref_valid] at hval
    simp only [Graphics.create_material, hval, if_true]
    refine ⟨?_, ?_, ?_⟩
    · simp [materialref_valid, getD_append_self]
    · simp [material_shader, getD_append_self]
    · intro ops hvalid
      have hk : s.materials.length <
          ({ s with materials := s.materials ++ [some j] } : GpuState).materials.length := by
        simp
      have hbase : ({ s with materials := s.materials ++ [some j] } : GpuState).materials.getD
          s.materials.length none = some j := getD_append_self _ _ _
      have hp := applyOps_pres ops { s with materials := s.materials ++ [some j] }
        s.materials.length j hk (Or.inl hbase)
      simp only [materialref_valid] at hvalid
      rcases hp.2 with hsome | hnone
      · simp only [shader_alive]
        have hmem : some j ∈
            (applyOps { s with materials := s.materials ++ [some j] } ops).materials :=
          mem_of_getD_eq_some hsome
        have hany : (applyOps { s with materials := s.materials ++ [some j] }
            ops).materials.any (fun o => o == some j) = true := by
          rw [List.any_eq_true]
          exact ⟨some j, hmem, by simp⟩
        rw [hany, Bool.or_true]
      · rw [hnone] at hvalid
        simp at hvalid

/-- Witness for C3: in the fresh state, the default `RenderCall` carries the
invalid mesh handle, and `render` leaves the state untouched while reporting
an error. -/
theorem render_invalid_mesh_or_range_noop_witness :
    meshref_valid state0 RenderCall.init.mesh = false ∧
    (Graphics.render state0 RenderCall.init).1 = state0 ∧
    (Graphics.render state0 RenderCall.init).2.isSome = true := by
  have h := render_invalid_mesh_or_range_noop state0 RenderCall.init (Or.inl (by decide))
  exact ⟨by decide, h.1, h.2⟩

/-- Witness for C4: clearing the valid 4x4 framebuffer of `stateFb` to opaque
red succeeds and yields sixteen `0xFF0000FF` pixels, and clearing the invalid
handle of the empty state is a reported-error no-op. -/
theorem clear_valid_all_pixels_invalid_noop_witness :
    fbAt stateFb (some 0) = some fb0 ∧
    (Graphics.clear stateFb (some 0) 0xFF0000FF).2 = none ∧
    fbAt (Graphics.clear stateFb (some 0) 0xFF0000FF).1 (some 0) =
      some ({ attachments := [List.replicate 16 0xFF0000FF] }) ∧
    fbAt state0 (some 0) = none ∧
    Graphics.clear state0 (some 0) 0xFF0000FF =
      (state0, some GraphicsError.invalidTarget) := by
  have h := (clear_valid_all_pixels_invalid_noop stateFb (some 0) 0xFF0000FF).1 fb0 rfl
  have h2 := (clear_valid_all_pixels_invalid_noop state0 (some 0) 0xFF0000FF).2 rfl
  refine ⟨rfl, h.1, ?_, rfl, h2⟩
  rw [h.2.1]
  decide

/-- Witness for C5: creating a framebuffer with an empty attachment list in
the fresh state returns the invalid handle and leaves the state untouched. -/
theorem create_framebuffer_empty_attachments_witness :
    ([] : List TextureFormat).length = 0 ∧
    Graphics.create_framebuffer state0 4 4 [] = (state0, none) :=
  ⟨rfl, create_framebuffer_empty_attachments state0 4 4 [] rfl⟩

/-- Witness for C6: in a state with one externally held shader, creating a
material from it yields a valid material referencing shader 0, and even after
the caller releases its own shader handle the shader is still alive while the
material lives; an invalid handle yields an invalid material. -/
theorem create_material_spec_witness :
    shaderref_valid stateSh (some 0) = true ∧
    materialref_valid (Graphics.create_material stateSh (some 0)).1
      (Graphics.create_material stateSh (some 0)).2 = true ∧
    material_shader (Graphics.create_material stateSh (some 0)).1
      (Graphics.create_material stateSh (some 0)).2 = some 0 ∧
    shader_alive (applyOps (Graphics.create_material stateSh (some 0)).1
      [GraphicsOp.releaseShader (some 0)]) 0 = true ∧
    shaderref_valid state0 (some 0) = false ∧
    Graphics.create_material state0 (some 0) = (state0, none) := by
  have h := (create_material_spec stateSh (some 0) 0).2 rfl (by decide)
  have h2 := (create_material_spec state0 (some 0) 0).1 (by decide)
  exact ⟨by decide, h.1, h.2.1,
    h.2.2 [GraphicsOp.releaseShader (some 0)] (by decide), by decide, h2⟩

end Blah
